import Mathlib

/-!
# aeacus: Linux check evaluation (`cmd/checks_linux.go`) and the scoring loop
jitter (`phocus-src/phocus.go`)

A shallow embedding of `processCheck` and of the probes defined next to it.
A Go `error` value is an `Option Error` (`none` is `nil`); a Go function that
returns `(bool, error)` returns `Bool × Option Error` here.  The pointer
argument `check *check` becomes a value that is passed in and returned.
-/

namespace Aeacus

/-- Go `error` values: only `nil` versus non-`nil` is ever inspected. -/
abbrev Error := String

/-- Modelled from the spec: the declaration of the `check` record is not among
the sources.  `processCheck` reads and writes only its `Message` field, the
"mutable display string" of the data model. -/
structure check where
  Message : String
  deriving DecidableEq, Repr

/-- Modelled from the spec: the probe primitives `dirContainsRegex`,
`fileContains`, `commandContains` and `commandOutput` are called by the sources
but defined elsewhere.  They are "external collaborators" that inspect the live
machine and return a value with an optional error, so the machine is a record
of four arbitrary functions. -/
structure World where
  dirContainsRegex : String → String → Bool × Option Error
  fileContains : String → String → Bool × Option Error
  commandContains : String → String → Bool × Option Error
  commandOutput : String → String × Option Error

/-- Modelled from the spec: `failPrint` is not among the sources.  It emits one
diagnostic line on a side channel; the channel is the list of lines emitted. -/
def failPrint (msg : String) : List String := [msg]

/-- `passwordChanged` (checks_linux.go:143). -/
def passwordChanged (w : World) (_user hash : String) : Bool × Option Error :=
  let (res, err) := w.fileContains "/etc/shadow" hash
  (!res, err)

/-- `guestDisabledLDM` (checks_linux.go:148). -/
def guestDisabledLDM (w : World) : Bool × Option Error :=
  let (result, err) :=
    w.dirContainsRegex "/usr/share/lightdm/lightdm.conf.d/" "allow-guest( |)=( |)false"
  if !result && err == none then
    w.dirContainsRegex "/etc/lightdm/" "allow-guest( |)=( |)false"
  else
    (result, err)

/-- `kernelVersion` (checks_linux.go:165). -/
def kernelVersion (w : World) (version : String) : Bool × Option Error :=
  w.commandContains "uname -r" version

/-- `autoCheckUpdatesEnabled` (checks_linux.go:169). -/
def autoCheckUpdatesEnabled (w : World) : Bool × Option Error :=
  w.dirContainsRegex "/etc/apt/apt.conf.d/" "APT::Periodic::Update-Package-Lists\\s+\"1\";"

/-- `permissionIs` (checks_linux.go:178). -/
def permissionIs (w : World) (filePath checkType permissionToCheck : String) :
    Bool × Option Error :=
  if checkType = "octal" then
    let (perm, err) := w.commandOutput ("stat -c '%a' " ++ filePath)
    (decide (perm = permissionToCheck), err)
  else if checkType = "WorldWritable" then
    w.commandContains ("find " ++ filePath ++ " -perm -g+w -or -perm -o+w") filePath
  else if checkType = "WorldReadable" then
    w.commandContains ("find " ++ filePath ++ " -perm -o=r") filePath
  else
    (false, none)

/-- What one call of `processCheck` leaves behind: the check record after the
call, the returned boolean, and the diagnostics emitted. -/
structure Outcome where
  check : check
  verdict : Bool
  log : List String
  deriving DecidableEq, Repr

/-- The statement `if check.Message == "" { check.Message = msg }`. -/
def fillMessage (c : check) (msg : String) : check :=
  if c.Message = "" then { c with Message := msg } else c

/-- The message chosen by the `PermissionIs` case (checks_linux.go:63-71). -/
def permissionIsMessage (arg1 arg2 arg3 : String) : String :=
  if arg2 = "octal" then
    "The octal permissions of " ++ arg1 ++ " are " ++ arg3
  else if arg2 = "WorldWritable" then
    arg1 ++ " is world writable"
  else if arg2 = "WorldReadable" then
    arg1 ++ " is world readable"
  else
    "Permissions of " ++ arg1 ++ " are " ++ arg3

/-- The message chosen by the `PermissionIsNot` case (checks_linux.go:79-87). -/
def permissionIsNotMessage (arg1 arg2 arg3 : String) : String :=
  if arg2 = "octal" then
    "The octal permissions of " ++ arg1 ++ " are not " ++ arg3
  else if arg2 = "WorldWritable" then
    arg1 ++ " is not world writable"
  else if arg2 = "WorldReadable" then
    arg1 ++ " is not world readable"
  else
    "Permissions of " ++ arg1 ++ " are not " ++ arg3

/-- The tail `return err == nil && result` of a direct case. -/
def direct (c : check) (r : Bool × Option Error) : Outcome :=
  ⟨c, r.2 == none && r.1, []⟩

/-- The tail `return err == nil && !result` of a negated case. -/
def negated (c : check) (r : Bool × Option Error) : Outcome :=
  ⟨c, r.2 == none && !r.1, []⟩

/-- `processCheck` (checks_linux.go:10).  The `switch` compares `checkType`
with each case label in turn. -/
def processCheck (w : World) (c : check) (checkType arg1 arg2 arg3 : String) : Outcome :=
  if checkType = "GuestDisabledLDM" then
    direct (fillMessage c "Guest is disabled") (guestDisabledLDM w)
  else if checkType = "GuestDisabledLDMNot" then
    negated (fillMessage c "Guest is enabled") (guestDisabledLDM w)
  else if checkType = "PasswordChanged" then
    direct (fillMessage c ("Password for " ++ arg1 ++ " has been changed"))
      (passwordChanged w arg1 arg2)
  else if checkType = "PasswordChangedNot" then
    negated (fillMessage c ("Password for " ++ arg1 ++ " has not been changed"))
      (passwordChanged w arg1 arg2)
  else if checkType = "KernelVersion" then
    direct (fillMessage c ("Kernel is version " ++ arg1)) (kernelVersion w arg1)
  else if checkType = "KernelVersionNot" then
    negated (fillMessage c ("Kernel is not version " ++ arg1)) (kernelVersion w arg1)
  else if checkType = "AutoCheckUpdatesEnabled" then
    direct (fillMessage c "The system automatically checks for updates daily")
      (autoCheckUpdatesEnabled w)
  else if checkType = "AutoCheckUpdatesEnabledNot" then
    negated (fillMessage c "The system does not automatically checks for updates daily")
      (autoCheckUpdatesEnabled w)
  else if checkType = "PermissionIs" then
    direct (fillMessage c (permissionIsMessage arg1 arg2 arg3)) (permissionIs w arg1 arg2 arg3)
  else if checkType = "PermissionIsNot" then
    negated (fillMessage c (permissionIsNotMessage arg1 arg2 arg3))
      (permissionIs w arg1 arg2 arg3)
  else
    ⟨c, false, failPrint ("No check type " ++ checkType)⟩

/-- The seconds slept between two scoring passes (phocus.go:61),
`rand.Intn(20) + 6`, as a function of the value `u` that `rand.Intn(20)`
returned. -/
def jitter (u : Int) : Int := u + 6

/-- A machine without files or commands: every primitive reports no match and
no error. -/
def emptyWorld : World :=
  ⟨fun _ _ => (false, none), fun _ _ => (false, none), fun _ _ => (false, none),
    fun _ => ("", none)⟩

/-- A machine on which every primitive fails: no match, and an error. -/
def brokenWorld : World :=
  ⟨fun _ _ => (false, some "exec: not found"), fun _ _ => (false, some "open: no such file"),
    fun _ _ => (false, some "exec: not found"), fun _ => ("", some "exec: not found")⟩

/-- A machine on which `stat` reports the mode `600` for `/etc/shadow`, whose
password store holds the hash `newHash` only, and where nothing else matches. -/
def shadowWorld : World :=
  ⟨fun _ _ => (false, none),
    fun file text => (decide (file = "/etc/shadow" ∧ text = "newHash"), none),
    fun _ _ => (false, none),
    fun cmd => if cmd = "stat -c '%a' /etc/shadow" then ("600", none) else ("", none)⟩

/-- A machine on which scanning `/usr/share/lightdm/lightdm.conf.d/` gives
`first`, scanning `/etc/lightdm/` gives `second`, and nothing else matches. -/
def ldmDirs (first second : Bool × Option Error) : World :=
  ⟨fun dir _ =>
      if dir = "/usr/share/lightdm/lightdm.conf.d/" then first
      else if dir = "/etc/lightdm/" then second
      else (false, none),
    fun _ _ => (false, none), fun _ _ => (false, none), fun _ => ("", none)⟩

/-- The first scan fails without a match; `/etc/lightdm/` holds the directive
`allow-guest=false`. -/
def ldmWorld : World := ldmDirs (false, some "open: permission denied") (true, none)

/-- One call of `processCheck` in a sequence: the state of the machine at the
time of the call, and the four string arguments. -/
structure Call where
  world : World
  checkType : String
  arg1 : String
  arg2 : String
  arg3 : String

/-- The values `check.Message` takes after each call of a sequence of
`processCheck` calls on one check record, in order. -/
def messageHistory (c : check) : List Call → List String
  | [] => []
  | k :: ks =>
    let c1 := (processCheck k.world c k.checkType k.arg1 k.arg2 k.arg3).check
    c1.Message :: messageHistory c1 ks

/-- How many times a value differs from the one before it, along `m :: ms`. -/
def changes (m : String) : List String → Nat
  | [] => 0
  | m1 :: ms => (if m = m1 then 0 else 1) + changes m1 ms

/-- Four calls in a row: an unrecognised type, then `PasswordChanged`,
`KernelVersionNot` on a machine where every command fails, and `PermissionIs`. -/
def demoCalls : List Call :=
  [⟨emptyWorld, "ServiceUp", "ssh", "", ""⟩,
   ⟨shadowWorld, "PasswordChanged", "alice", "oldHash", ""⟩,
   ⟨brokenWorld, "KernelVersionNot", "5.4", "", ""⟩,
   ⟨shadowWorld, "PermissionIs", "/etc/shadow", "octal", "640"⟩]

/-! ## Helper lemmas -/

theorem fillMessage_of_ne (c : check) (msg : String) (h : c.Message ≠ "") :
    fillMessage c msg = c := by
  simp [fillMessage, h]

theorem fillMessage_of_empty (c : check) (msg : String) (h : c.Message = "") :
    (fillMessage c msg).Message = msg := by
  simp [fillMessage, h]

theorem processCheck_check_of_ne (w : World) (c : check) (checkType arg1 arg2 arg3 : String)
    (h : c.Message ≠ "") : (processCheck w c checkType arg1 arg2 arg3).check = c := by
  unfold processCheck
  repeat' split
  all_goals simp [direct, negated, fillMessage_of_ne c _ h]

theorem ne_empty_of_length (s : String) (h : s.length ≠ 0) : s ≠ "" := by
  intro he
  rw [he] at h
  exact h rfl

theorem permissionIsMessage_ne_empty (arg1 arg2 arg3 : String) :
    permissionIsMessage arg1 arg2 arg3 ≠ "" := by
  have h5 : " are ".length = 5 := rfl
  have h18 : " is world writable".length = 18 := rfl
  have h18r : " is world readable".length = 18 := rfl
  apply ne_empty_of_length
  unfold permissionIsMessage
  split_ifs <;> simp only [String.length_append] <;> omega

theorem permissionIsNotMessage_ne_empty (arg1 arg2 arg3 : String) :
    permissionIsNotMessage arg1 arg2 arg3 ≠ "" := by
  have h9 : " are not ".length = 9 := rfl
  have h22 : " is not world writable".length = 22 := rfl
  have h22r : " is not world readable".length = 22 := rfl
  apply ne_empty_of_length
  unfold permissionIsNotMessage
  split_ifs <;> simp only [String.length_append] <;> omega

theorem password_message_ne_empty (arg1 : String) :
    "Password for " ++ arg1 ++ " has been changed" ≠ "" ∧
    "Password for " ++ arg1 ++ " has not been changed" ≠ "" := by
  have h1 : " has been changed".length = 17 := rfl
  have h2 : " has not been changed".length = 21 := rfl
  constructor <;> apply ne_empty_of_length <;> simp only [String.length_append] <;> omega

theorem kernel_message_ne_empty (arg1 : String) :
    "Kernel is version " ++ arg1 ≠ "" ∧ "Kernel is not version " ++ arg1 ≠ "" := by
  have h1 : "Kernel is version ".length = 18 := rfl
  have h2 : "Kernel is not version ".length = 22 := rfl
  constructor <;> apply ne_empty_of_length <;> simp only [String.length_append] <;> omega

/-- The ten case labels of the `switch` in `processCheck`. -/
theorem mem_labels_iff (t : String) :
    t ∈ ["GuestDisabledLDM", "GuestDisabledLDMNot", "PasswordChanged",
        "PasswordChangedNot", "KernelVersion", "KernelVersionNot", "AutoCheckUpdatesEnabled",
        "AutoCheckUpdatesEnabledNot", "PermissionIs", "PermissionIsNot"] ↔
      (t = "GuestDisabledLDM" ∨ t = "GuestDisabledLDMNot" ∨ t = "PasswordChanged" ∨
        t = "PasswordChangedNot" ∨ t = "KernelVersion" ∨ t = "KernelVersionNot" ∨
        t = "AutoCheckUpdatesEnabled" ∨ t = "AutoCheckUpdatesEnabledNot" ∨
        t = "PermissionIs" ∨ t = "PermissionIsNot") := by
  simp only [List.mem_cons, List.mem_singleton, List.not_mem_nil, or_false]

/-- With an empty `Message` on entry, each case label leaves a non-empty one. -/
theorem processCheck_message_filled (w : World) (c : check) (checkType arg1 arg2 arg3 : String)
    (h : c.Message = "")
    (hk : checkType = "GuestDisabledLDM" ∨ checkType = "GuestDisabledLDMNot" ∨
      checkType = "PasswordChanged" ∨ checkType = "PasswordChangedNot" ∨
      checkType = "KernelVersion" ∨ checkType = "KernelVersionNot" ∨
      checkType = "AutoCheckUpdatesEnabled" ∨ checkType = "AutoCheckUpdatesEnabledNot" ∨
      checkType = "PermissionIs" ∨ checkType = "PermissionIsNot") :
    (processCheck w c checkType arg1 arg2 arg3).check.Message ≠ "" := by
  rcases hk with rfl | rfl | rfl | rfl | rfl | rfl | rfl | rfl | rfl | rfl
  · simp [processCheck, direct, fillMessage, h]
  · simp [processCheck, negated, fillMessage, h]
  · simpa [processCheck, direct, fillMessage, h] using (password_message_ne_empty arg1).1
  · simpa [processCheck, negated, fillMessage, h] using (password_message_ne_empty arg1).2
  · simpa [processCheck, direct, fillMessage, h] using (kernel_message_ne_empty arg1).1
  · simpa [processCheck, negated, fillMessage, h] using (kernel_message_ne_empty arg1).2
  · simp [processCheck, direct, fillMessage, h]
  · simp [processCheck, negated, fillMessage, h]
  · simpa [processCheck, direct, fillMessage, h] using permissionIsMessage_ne_empty arg1 arg2 arg3
  · simpa [processCheck, negated, fillMessage, h] using
      permissionIsNotMessage_ne_empty arg1 arg2 arg3

/-- A check type that is no case label falls to the `default` case. -/
theorem processCheck_default (w : World) (c : check) (checkType arg1 arg2 arg3 : String)
    (hk : ¬ (checkType = "GuestDisabledLDM" ∨ checkType = "GuestDisabledLDMNot" ∨
      checkType = "PasswordChanged" ∨ checkType = "PasswordChangedNot" ∨
      checkType = "KernelVersion" ∨ checkType = "KernelVersionNot" ∨
      checkType = "AutoCheckUpdatesEnabled" ∨ checkType = "AutoCheckUpdatesEnabledNot" ∨
      checkType = "PermissionIs" ∨ checkType = "PermissionIsNot")) :
    processCheck w c checkType arg1 arg2 arg3
      = ⟨c, false, failPrint ("No check type " ++ checkType)⟩ := by
  simp only [not_or] at hk
  obtain ⟨h1, h2, h3, h4, h5, h6, h7, h8, h9, h10⟩ := hk
  simp [processCheck, h1, h2, h3, h4, h5, h6, h7, h8, h9, h10]

/-- One call either leaves `Message` as it was, or finds it empty and leaves
it non-empty. -/
theorem processCheck_message_step (w : World) (c : check) (checkType arg1 arg2 arg3 : String) :
    (processCheck w c checkType arg1 arg2 arg3).check.Message = c.Message ∨
    (c.Message = "" ∧ (processCheck w c checkType arg1 arg2 arg3).check.Message ≠ "") := by
  by_cases h : c.Message = ""
  · by_cases hk : checkType = "GuestDisabledLDM" ∨ checkType = "GuestDisabledLDMNot" ∨
      checkType = "PasswordChanged" ∨ checkType = "PasswordChangedNot" ∨
      checkType = "KernelVersion" ∨ checkType = "KernelVersionNot" ∨
      checkType = "AutoCheckUpdatesEnabled" ∨ checkType = "AutoCheckUpdatesEnabledNot" ∨
      checkType = "PermissionIs" ∨ checkType = "PermissionIsNot"
    · exact Or.inr ⟨h, processCheck_message_filled w c checkType arg1 arg2 arg3 h hk⟩
    · left
      rw [processCheck_default w c checkType arg1 arg2 arg3 hk]
  · left
    rw [processCheck_check_of_ne w c checkType arg1 arg2 arg3 h]

/-- Once `Message` is non-empty, no later call of a sequence changes it. -/
theorem messageHistory_of_ne (ks : List Call) (c : check) (h : c.Message ≠ "") :
    (∀ m ∈ messageHistory c ks, m = c.Message) ∧ changes c.Message (messageHistory c ks) = 0 := by
  induction ks generalizing c with
  | nil => simp [messageHistory, changes]
  | cons k ks ih =>
    have hc := processCheck_check_of_ne k.world c k.checkType k.arg1 k.arg2 k.arg3 h
    simp only [messageHistory, changes, hc]
    obtain ⟨h1, h2⟩ := ih c h
    refine ⟨?_, ?_⟩
    · intro m hm
      rcases List.mem_cons.mp hm with rfl | hm
      · rfl
      · exact h1 m hm
    · simp [h2]

/-! ## Claims -/

/-- C1: for each of the five pairs of check types, when the underlying probe
returns `(b, nil)` the direct check returns `b` and the negated check returns
`!b`, so the direct verdict is the negation of the negated verdict. -/
theorem processCheck_polarity (w : World) (c : check) (arg1 arg2 arg3 : String) (b : Bool) :
    (guestDisabledLDM w = (b, none) →
      (processCheck w c "GuestDisabledLDM" arg1 arg2 arg3).verdict = b ∧
      (processCheck w c "GuestDisabledLDMNot" arg1 arg2 arg3).verdict = !b ∧
      (processCheck w c "GuestDisabledLDM" arg1 arg2 arg3).verdict
        = !(processCheck w c "GuestDisabledLDMNot" arg1 arg2 arg3).verdict) ∧
    (passwordChanged w arg1 arg2 = (b, none) →
      (processCheck w c "PasswordChanged" arg1 arg2 arg3).verdict = b ∧
      (processCheck w c "PasswordChangedNot" arg1 arg2 arg3).verdict = !b ∧
      (processCheck w c "PasswordChanged" arg1 arg2 arg3).verdict
        = !(processCheck w c "PasswordChangedNot" arg1 arg2 arg3).verdict) ∧
    (kernelVersion w arg1 = (b, none) →
      (processCheck w c "KernelVersion" arg1 arg2 arg3).verdict = b ∧
      (processCheck w c "KernelVersionNot" arg1 arg2 arg3).verdict = !b ∧
      (processCheck w c "KernelVersion" arg1 arg2 arg3).verdict
        = !(processCheck w c "KernelVersionNot" arg1 arg2 arg3).verdict) ∧
    (autoCheckUpdatesEnabled w = (b, none) →
      (processCheck w c "AutoCheckUpdatesEnabled" arg1 arg2 arg3).verdict = b ∧
      (processCheck w c "AutoCheckUpdatesEnabledNot" arg1 arg2 arg3).verdict = !b ∧
      (processCheck w c "AutoCheckUpdatesEnabled" arg1 arg2 arg3).verdict
        = !(processCheck w c "AutoCheckUpdatesEnabledNot" arg1 arg2 arg3).verdict) ∧
    (permissionIs w arg1 arg2 arg3 = (b, none) →
      (processCheck w c "PermissionIs" arg1 arg2 arg3).verdict = b ∧
      (processCheck w c "PermissionIsNot" arg1 arg2 arg3).verdict = !b ∧
      (processCheck w c "PermissionIs" arg1 arg2 arg3).verdict
        = !(processCheck w c "PermissionIsNot" arg1 arg2 arg3).verdict) := by
  refine ⟨?_, ?_, ?_, ?_, ?_⟩ <;> intro h <;> simp [processCheck, direct, negated, h]

/-- Witness for C1 on a machine without files or commands: every probe returns
`(false, nil)` except `passwordChanged`, which returns `(true, nil)`. -/
theorem processCheck_polarity_witness :
    ((processCheck emptyWorld ⟨""⟩ "GuestDisabledLDM" "" "" "").verdict = false ∧
      (processCheck emptyWorld ⟨""⟩ "GuestDisabledLDMNot" "" "" "").verdict = true) ∧
    ((processCheck emptyWorld ⟨""⟩ "PasswordChanged" "alice" "x" "").verdict = true ∧
      (processCheck emptyWorld ⟨""⟩ "PasswordChangedNot" "alice" "x" "").verdict = false) ∧
    ((processCheck emptyWorld ⟨""⟩ "PermissionIs" "/etc/shadow" "octal" "").verdict = true ∧
      (processCheck emptyWorld ⟨""⟩ "PermissionIsNot" "/etc/shadow" "octal" "").verdict
        = false) :=
  ⟨⟨((processCheck_polarity emptyWorld ⟨""⟩ "" "" "" false).1 (by decide)).1,
     ((processCheck_polarity emptyWorld ⟨""⟩ "" "" "" false).1 (by decide)).2.1⟩,
   ⟨((processCheck_polarity emptyWorld ⟨""⟩ "alice" "x" "" true).2.1 (by decide)).1,
     ((processCheck_polarity emptyWorld ⟨""⟩ "alice" "x" "" true).2.1 (by decide)).2.1⟩,
   ⟨((processCheck_polarity emptyWorld ⟨""⟩ "/etc/shadow" "octal" "" true).2.2.2.2
       (by decide)).1,
     ((processCheck_polarity emptyWorld ⟨""⟩ "/etc/shadow" "octal" "" true).2.2.2.2
       (by decide)).2.1⟩⟩

/-- C2: for every recognised check type, when the underlying probe returns a
non-nil error the verdict is false whatever boolean accompanies the error, for
the direct and for the negated type alike; `passwordChanged` returns
`(true, err)` when reading the password store fails with `(false, err)`, and
`PasswordChanged` is false all the same. -/
theorem processCheck_error_false (w : World) (c : check) (arg1 arg2 arg3 : String) (b : Bool)
    (e : Error) :
    (guestDisabledLDM w = (b, some e) →
      (processCheck w c "GuestDisabledLDM" arg1 arg2 arg3).verdict = false ∧
      (processCheck w c "GuestDisabledLDMNot" arg1 arg2 arg3).verdict = false) ∧
    (passwordChanged w arg1 arg2 = (b, some e) →
      (processCheck w c "PasswordChanged" arg1 arg2 arg3).verdict = false ∧
      (processCheck w c "PasswordChangedNot" arg1 arg2 arg3).verdict = false) ∧
    (kernelVersion w arg1 = (b, some e) →
      (processCheck w c "KernelVersion" arg1 arg2 arg3).verdict = false ∧
      (processCheck w c "KernelVersionNot" arg1 arg2 arg3).verdict = false) ∧
    (autoCheckUpdatesEnabled w = (b, some e) →
      (processCheck w c "AutoCheckUpdatesEnabled" arg1 arg2 arg3).verdict = false ∧
      (processCheck w c "AutoCheckUpdatesEnabledNot" arg1 arg2 arg3).verdict = false) ∧
    (permissionIs w arg1 arg2 arg3 = (b, some e) →
      (processCheck w c "PermissionIs" arg1 arg2 arg3).verdict = false ∧
      (processCheck w c "PermissionIsNot" arg1 arg2 arg3).verdict = false) ∧
    (w.fileContains "/etc/shadow" arg2 = (false, some e) →
      passwordChanged w arg1 arg2 = (true, some e) ∧
      (processCheck w c "PasswordChanged" arg1 arg2 arg3).verdict = false ∧
      (processCheck w c "PasswordChangedNot" arg1 arg2 arg3).verdict = false) := by
  refine ⟨?_, ?_, ?_, ?_, ?_, ?_⟩ <;> intro h
  · simp [processCheck, direct, negated, h]
  · simp [processCheck, direct, negated, h]
  · simp [processCheck, direct, negated, h]
  · simp [processCheck, direct, negated, h]
  · simp [processCheck, direct, negated, h]
  · have hp : passwordChanged w arg1 arg2 = (true, some e) := by
      simp [passwordChanged, h]
    simp [processCheck, direct, negated, hp]

/-- Witness for C2 on a machine where every primitive fails: `passwordChanged`
returns `(true, err)` there and both password checks are false. -/
theorem processCheck_error_false_witness :
    passwordChanged brokenWorld "alice" "x" = (true, some "open: no such file") ∧
    (processCheck brokenWorld ⟨""⟩ "PasswordChanged" "alice" "x" "").verdict = false ∧
    (processCheck brokenWorld ⟨""⟩ "PasswordChangedNot" "alice" "x" "").verdict = false ∧
    (processCheck brokenWorld ⟨""⟩ "GuestDisabledLDM" "alice" "x" "").verdict = false ∧
    (processCheck brokenWorld ⟨""⟩ "GuestDisabledLDMNot" "alice" "x" "").verdict = false :=
  ⟨((processCheck_error_false brokenWorld ⟨""⟩ "alice" "x" "" true
        "open: no such file").2.2.2.2.2 (by decide)).1,
   ((processCheck_error_false brokenWorld ⟨""⟩ "alice" "x" "" true
        "open: no such file").2.1 (by decide)).1,
   ((processCheck_error_false brokenWorld ⟨""⟩ "alice" "x" "" true
        "open: no such file").2.1 (by decide)).2,
   ((processCheck_error_false brokenWorld ⟨""⟩ "alice" "x" "" false
        "exec: not found").1 (by decide)).1,
   ((processCheck_error_false brokenWorld ⟨""⟩ "alice" "x" "" false
        "exec: not found").1 (by decide)).2⟩

/-- C3: a check type that is none of the ten case labels yields the verdict
false, emits exactly the diagnostic `"No check type " + checkType`, and leaves
the check record as it was. -/
theorem processCheck_unknown (w : World) (c : check) (checkType arg1 arg2 arg3 : String)
    (h1 : checkType ≠ "GuestDisabledLDM") (h2 : checkType ≠ "GuestDisabledLDMNot")
    (h3 : checkType ≠ "PasswordChanged") (h4 : checkType ≠ "PasswordChangedNot")
    (h5 : checkType ≠ "KernelVersion") (h6 : checkType ≠ "KernelVersionNot")
    (h7 : checkType ≠ "AutoCheckUpdatesEnabled")
    (h8 : checkType ≠ "AutoCheckUpdatesEnabledNot")
    (h9 : checkType ≠ "PermissionIs") (h10 : checkType ≠ "PermissionIsNot") :
    (processCheck w c checkType arg1 arg2 arg3).verdict = false ∧
    (processCheck w c checkType arg1 arg2 arg3).log = ["No check type " ++ checkType] ∧
    (processCheck w c checkType arg1 arg2 arg3).check = c := by
  simp [processCheck, failPrint, h1, h2, h3, h4, h5, h6, h7, h8, h9, h10]

/-- Witness for C3: `ServiceUp` is not a Linux case label of `processCheck`. -/
theorem processCheck_unknown_witness :
    (processCheck emptyWorld ⟨""⟩ "ServiceUp" "ssh" "" "").verdict = false ∧
    (processCheck emptyWorld ⟨""⟩ "ServiceUp" "ssh" "" "").log = ["No check type ServiceUp"] ∧
    (processCheck emptyWorld ⟨""⟩ "ServiceUp" "ssh" "" "").check = ⟨""⟩ :=
  processCheck_unknown emptyWorld ⟨""⟩ "ServiceUp" "ssh" "" "" (by decide) (by decide)
    (by decide) (by decide) (by decide) (by decide) (by decide) (by decide) (by decide)
    (by decide)

/-- C4: when `Message` is non-empty on entry, `processCheck` leaves it equal to
its value on entry, for every check type, arguments and probe outcomes. -/
theorem processCheck_message_kept (w : World) (c : check) (checkType arg1 arg2 arg3 : String)
    (h : c.Message ≠ "") :
    (processCheck w c checkType arg1 arg2 arg3).check.Message = c.Message := by
  rw [processCheck_check_of_ne w c checkType arg1 arg2 arg3 h]

/-- Witness for C4: a custom message survives a `PasswordChanged` check that
would otherwise fill in its default. -/
theorem processCheck_message_kept_witness :
    (processCheck emptyWorld ⟨"custom"⟩ "PasswordChanged" "alice" "x" "").check.Message
      = "custom" :=
  processCheck_message_kept emptyWorld ⟨"custom"⟩ "PasswordChanged" "alice" "x" "" (by decide)

/-- C5: with an empty `Message` on entry, `PermissionIs` sets the message of
the row of the table picked by `arg2` and `PermissionIsNot` sets the negated
wording of that row, whatever the machine answers; a `PermissionIs` that fails
because `stat` reports `600` against the expected `640` keeps the positive
wording and does not produce the "are not 640" message. -/
theorem permission_message (w : World) (c : check) (arg1 arg2 arg3 : String)
    (h : c.Message = "") :
    (arg2 = "octal" →
      (processCheck w c "PermissionIs" arg1 arg2 arg3).check.Message
        = "The octal permissions of " ++ arg1 ++ " are " ++ arg3 ∧
      (processCheck w c "PermissionIsNot" arg1 arg2 arg3).check.Message
        = "The octal permissions of " ++ arg1 ++ " are not " ++ arg3) ∧
    (arg2 = "WorldWritable" →
      (processCheck w c "PermissionIs" arg1 arg2 arg3).check.Message
        = arg1 ++ " is world writable" ∧
      (processCheck w c "PermissionIsNot" arg1 arg2 arg3).check.Message
        = arg1 ++ " is not world writable") ∧
    (arg2 = "WorldReadable" →
      (processCheck w c "PermissionIs" arg1 arg2 arg3).check.Message
        = arg1 ++ " is world readable" ∧
      (processCheck w c "PermissionIsNot" arg1 arg2 arg3).check.Message
        = arg1 ++ " is not world readable") ∧
    (arg2 ≠ "octal" → arg2 ≠ "WorldWritable" → arg2 ≠ "WorldReadable" →
      (processCheck w c "PermissionIs" arg1 arg2 arg3).check.Message
        = "Permissions of " ++ arg1 ++ " are " ++ arg3 ∧
      (processCheck w c "PermissionIsNot" arg1 arg2 arg3).check.Message
        = "Permissions of " ++ arg1 ++ " are not " ++ arg3) ∧
    (w.commandOutput "stat -c '%a' /etc/shadow" = ("600", none) →
      (processCheck w c "PermissionIs" "/etc/shadow" "octal" "640").verdict = false ∧
      (processCheck w c "PermissionIs" "/etc/shadow" "octal" "640").check.Message
        = "The octal permissions of /etc/shadow are 640" ∧
      (processCheck w c "PermissionIs" "/etc/shadow" "octal" "640").check.Message
        ≠ "The octal permissions of /etc/shadow are not 640") := by
  refine ⟨?_, ?_, ?_, ?_, ?_⟩
  · intro h2
    simp [processCheck, direct, negated, fillMessage, h, h2, permissionIsMessage,
      permissionIsNotMessage]
  · intro h2
    simp [processCheck, direct, negated, fillMessage, h, h2, permissionIsMessage,
      permissionIsNotMessage]
  · intro h2
    simp [processCheck, direct, negated, fillMessage, h, h2, permissionIsMessage,
      permissionIsNotMessage]
  · intro h2 h3 h4
    simp [processCheck, direct, negated, fillMessage, h, h2, h3, h4, permissionIsMessage,
      permissionIsNotMessage]
  · intro h2
    have hs : ("stat -c '%a' " ++ "/etc/shadow" : String) = "stat -c '%a' /etc/shadow" := by
      decide
    have hm : permissionIsMessage "/etc/shadow" "octal" "640"
        = "The octal permissions of /etc/shadow are 640" := by decide
    have hp : permissionIs w "/etc/shadow" "octal" "640" = (false, none) := by
      simp [permissionIs, hs, h2]
    simp [processCheck, direct, fillMessage, h, hm, hp]

/-- Witness for C5 on a machine where `stat` reports `600` for `/etc/shadow`:
the failing `PermissionIs` carries the positive wording, `PermissionIsNot`
the negated one. -/
theorem permission_message_witness :
    ((processCheck shadowWorld ⟨""⟩ "PermissionIs" "/etc/shadow" "octal" "640").check.Message
        = "The octal permissions of " ++ "/etc/shadow" ++ " are " ++ "640" ∧
      (processCheck shadowWorld ⟨""⟩ "PermissionIsNot" "/etc/shadow" "octal" "640").check.Message
        = "The octal permissions of " ++ "/etc/shadow" ++ " are not " ++ "640") ∧
    ((processCheck shadowWorld ⟨""⟩ "PermissionIs" "/etc/shadow" "octal" "640").verdict = false ∧
      (processCheck shadowWorld ⟨""⟩ "PermissionIs" "/etc/shadow" "octal" "640").check.Message
        = "The octal permissions of /etc/shadow are 640" ∧
      (processCheck shadowWorld ⟨""⟩ "PermissionIs" "/etc/shadow" "octal" "640").check.Message
        ≠ "The octal permissions of /etc/shadow are not 640") :=
  ⟨(permission_message shadowWorld ⟨""⟩ "/etc/shadow" "octal" "640" rfl).1 rfl,
   (permission_message shadowWorld ⟨""⟩ "/etc/shadow" "octal" "640" rfl).2.2.2.2 (by decide)⟩

/-- C6 as stated fails: when `rand.Intn(20)` returns 19 the loop sleeps 25
seconds, which is not strictly less than 25. -/
theorem jitter_not_lt_25 : (0 : Int) ≤ 19 ∧ (19 : Int) < 20 ∧ jitter 19 = 25 ∧ ¬ jitter 19 < 25 := by
  decide

/-- C6, amended: for every value `u` with `0 ≤ u < 20` the sleep duration
`u + 6` seconds is at least 6 and at most 25, that is, in `[6,26)`. -/
theorem jitter_range (u : Int) (h0 : 0 ≤ u) (h20 : u < 20) :
    6 ≤ jitter u ∧ jitter u ≤ 25 ∧ jitter u < 26 := by
  unfold jitter
  omega

/-- Witness for C6, amended, at the largest value `rand.Intn(20)` returns. -/
theorem jitter_range_witness : 6 ≤ jitter 19 ∧ jitter 19 ≤ 25 ∧ jitter 19 < 26 :=
  jitter_range 19 (by decide) (by decide)

/-- C7: when reading the password store succeeds with `(found, nil)`,
`PasswordChanged` is true iff the hash is absent, `PasswordChangedNot` is true
iff it is present, and an empty `Message` becomes
`"Password for " + user + " has been changed"` under `PasswordChanged`. -/
theorem passwordChanged_verdict (w : World) (c : check) (user hash arg3 : String)
    (found : Bool) (h : w.fileContains "/etc/shadow" hash = (found, none)) :
    (processCheck w c "PasswordChanged" user hash arg3).verdict = !found ∧
    (processCheck w c "PasswordChangedNot" user hash arg3).verdict = found ∧
    (c.Message = "" →
      (processCheck w c "PasswordChanged" user hash arg3).check.Message
        = "Password for " ++ user ++ " has been changed") := by
  have hp : passwordChanged w user hash = (!found, none) := by
    simp [passwordChanged, h]
  refine ⟨?_, ?_, ?_⟩
  · simp [processCheck, direct, hp]
  · simp [processCheck, negated, hp]
  · intro hm
    simp [processCheck, direct, fillMessage, hm]

/-- Witness for C7 (scenario A): the store holds `newHash` only, so the hash
`oldHash` is absent; `PasswordChanged("alice", oldHash)` is true and the
message is "Password for alice has been changed". -/
theorem passwordChanged_verdict_witness :
    (processCheck shadowWorld ⟨""⟩ "PasswordChanged" "alice" "oldHash" "").verdict = true ∧
    (processCheck shadowWorld ⟨""⟩ "PasswordChangedNot" "alice" "oldHash" "").verdict
      = false ∧
    (processCheck shadowWorld ⟨""⟩ "PasswordChanged" "alice" "oldHash" "").check.Message
      = "Password for alice has been changed" :=
  ⟨(passwordChanged_verdict shadowWorld ⟨""⟩ "alice" "oldHash" "" false (by decide)).1,
   (passwordChanged_verdict shadowWorld ⟨""⟩ "alice" "oldHash" "" false (by decide)).2.1,
   (passwordChanged_verdict shadowWorld ⟨""⟩ "alice" "oldHash" "" false (by decide)).2.2 rfl⟩

/-- C8 as stated fails: when the scan of the first directory fails without a
match and the second directory holds the directive, `guestDisabledLDM` returns
`(false, err)` although the directive is found in one of the two directories. -/
theorem guestDisabledLDM_not_either :
    ldmWorld.dirContainsRegex "/usr/share/lightdm/lightdm.conf.d/" "allow-guest( |)=( |)false"
      = (false, some "open: permission denied") ∧
    ldmWorld.dirContainsRegex "/etc/lightdm/" "allow-guest( |)=( |)false" = (true, none) ∧
    guestDisabledLDM ldmWorld = (false, some "open: permission denied") ∧
    ¬ ((guestDisabledLDM ldmWorld).1 = true ↔
        ((ldmWorld.dirContainsRegex "/usr/share/lightdm/lightdm.conf.d/"
            "allow-guest( |)=( |)false").1 = true ∨
          (ldmWorld.dirContainsRegex "/etc/lightdm/" "allow-guest( |)=( |)false").1 = true)) := by
  decide

/-- C8, amended: `guestDisabledLDM` returns matched = true iff the first scan
matched, or the first scan returned no match and no error and the second scan
matched; and when the first scan matches, the outcome is that of the first
scan whatever the second directory holds. -/
theorem guestDisabledLDM_spec (w : World) :
    ((guestDisabledLDM w).1 = true ↔
      ((w.dirContainsRegex "/usr/share/lightdm/lightdm.conf.d/"
          "allow-guest( |)=( |)false").1 = true ∨
        ((w.dirContainsRegex "/usr/share/lightdm/lightdm.conf.d/"
            "allow-guest( |)=( |)false").2 = none ∧
          (w.dirContainsRegex "/etc/lightdm/" "allow-guest( |)=( |)false").1 = true))) ∧
    ((w.dirContainsRegex "/usr/share/lightdm/lightdm.conf.d/"
        "allow-guest( |)=( |)false").1 = true →
      ∀ w2 : World,
        w2.dirContainsRegex "/usr/share/lightdm/lightdm.conf.d/" "allow-guest( |)=( |)false"
          = w.dirContainsRegex "/usr/share/lightdm/lightdm.conf.d/"
              "allow-guest( |)=( |)false" →
        guestDisabledLDM w2 = guestDisabledLDM w ∧
        guestDisabledLDM w = w.dirContainsRegex "/usr/share/lightdm/lightdm.conf.d/"
          "allow-guest( |)=( |)false") := by
  constructor
  · unfold guestDisabledLDM
    rcases h1 : w.dirContainsRegex "/usr/share/lightdm/lightdm.conf.d/"
      "allow-guest( |)=( |)false" with ⟨r1, e1⟩
    cases r1 <;> cases e1 <;> simp
  · intro h w2 h2
    unfold guestDisabledLDM
    rw [h2]
    rcases h1 : w.dirContainsRegex "/usr/share/lightdm/lightdm.conf.d/"
      "allow-guest( |)=( |)false" with ⟨r1, e1⟩
    rw [h1] at h
    simp at h
    subst h
    simp

/-- Witness for C8, amended: the first directory matches; a machine whose
second scan fails gives the same outcome as one whose second scan matches. -/
theorem guestDisabledLDM_spec_witness :
    guestDisabledLDM (ldmDirs (true, none) (false, some "open: permission denied"))
      = guestDisabledLDM (ldmDirs (true, none) (true, none)) ∧
    guestDisabledLDM (ldmDirs (true, none) (true, none)) = (true, none) :=
  (guestDisabledLDM_spec (ldmDirs (true, none) (true, none))).2 (by decide)
    (ldmDirs (true, none) (false, some "open: permission denied")) (by decide)

/-- C9: for a `checkType` other than `octal`, `WorldWritable` and
`WorldReadable`, `permissionIs` returns `(false, nil)` on every machine, so no
command's answer enters the result; for `octal`, when `stat` succeeds with the
permission string `perm`, it returns true iff `perm` equals
`permissionToCheck`, with no error. -/
theorem permissionIs_spec (w : World) (filePath checkType permissionToCheck perm : String) :
    (checkType ≠ "octal" → checkType ≠ "WorldWritable" → checkType ≠ "WorldReadable" →
      permissionIs w filePath checkType permissionToCheck = (false, none) ∧
      ∀ w2 : World, permissionIs w2 filePath checkType permissionToCheck
        = permissionIs w filePath checkType permissionToCheck) ∧
    (w.commandOutput ("stat -c '%a' " ++ filePath) = (perm, none) →
      ((permissionIs w filePath "octal" permissionToCheck).1 = true ↔
        perm = permissionToCheck) ∧
      (permissionIs w filePath "octal" permissionToCheck).2 = none) := by
  constructor
  · intro h1 h2 h3
    simp [permissionIs, h1, h2, h3]
  · intro h
    simp [permissionIs, h]

/-- Witness for C9: an unknown mode gives `(false, nil)` even on a machine
where every command fails, and on a machine where `stat` reports `600` the
octal comparison with `600` is true (and with `640`, see C5, false). -/
theorem permissionIs_spec_witness :
    permissionIs brokenWorld "/etc/shadow" "Octal" "640" = (false, none) ∧
    (permissionIs shadowWorld "/etc/shadow" "octal" "600").1 = true ∧
    (permissionIs shadowWorld "/etc/shadow" "octal" "600").2 = none :=
  ⟨((permissionIs_spec brokenWorld "/etc/shadow" "Octal" "640" "").1 (by decide) (by decide)
      (by decide)).1,
   ((permissionIs_spec shadowWorld "/etc/shadow" "octal" "600" "600").2 (by decide)).1.2 rfl,
   ((permissionIs_spec shadowWorld "/etc/shadow" "octal" "600" "600").2 (by decide)).2⟩

/-- C10: over every finite sequence of `processCheck` calls on a check
record, `Message` changes value at most once; every recognised check type
leaves a non-empty `Message` for all arguments, empty ones included; and from
a non-empty `Message` on, every later value in the sequence equals it. -/
theorem message_changes_at_most_once (c : check) (ks : List Call) :
    changes c.Message (messageHistory c ks) ≤ 1 ∧
    (∀ (w : World) (checkType arg1 arg2 arg3 : String),
      checkType ∈ ["GuestDisabledLDM", "GuestDisabledLDMNot", "PasswordChanged",
        "PasswordChangedNot", "KernelVersion", "KernelVersionNot", "AutoCheckUpdatesEnabled",
        "AutoCheckUpdatesEnabledNot", "PermissionIs", "PermissionIsNot"] →
      (processCheck w c checkType arg1 arg2 arg3).check.Message ≠ "") ∧
    (c.Message ≠ "" → ∀ m ∈ messageHistory c ks, m = c.Message) := by
  refine ⟨?_, ?_, ?_⟩
  · induction ks generalizing c with
    | nil => simp [messageHistory, changes]
    | cons k ks ih =>
      simp only [messageHistory, changes]
      rcases processCheck_message_step k.world c k.checkType k.arg1 k.arg2 k.arg3 with
        h | ⟨_, h⟩
      · have := ih (processCheck k.world c k.checkType k.arg1 k.arg2 k.arg3).check
        rw [if_pos h.symm]
        omega
      · have := (messageHistory_of_ne ks _ h).2
        split_ifs <;> omega
  · intro w checkType arg1 arg2 arg3 hmem
    by_cases hc : c.Message = ""
    · exact processCheck_message_filled w c checkType arg1 arg2 arg3 hc
        ((mem_labels_iff checkType).mp hmem)
    · rw [processCheck_check_of_ne w c checkType arg1 arg2 arg3 hc]
      exact hc
  · intro h
    exact (messageHistory_of_ne ks c h).1

/-- Witness for C10: over four calls starting from an empty `Message`, the
message stays empty through the unrecognised type, is filled by
`PasswordChanged` and is kept by the two later calls; and `PermissionIs` with
empty `arg1` and `arg3` still leaves a non-empty message. -/
theorem message_changes_at_most_once_witness :
    changes "" (messageHistory ⟨""⟩ demoCalls) ≤ 1 ∧
    messageHistory ⟨""⟩ demoCalls
      = ["", "Password for alice has been changed", "Password for alice has been changed",
          "Password for alice has been changed"] ∧
    (processCheck emptyWorld ⟨""⟩ "PermissionIs" "" "WorldWritable" "").check.Message ≠ "" ∧
    (∀ m ∈ messageHistory ⟨"custom"⟩ demoCalls, m = "custom") :=
  ⟨(message_changes_at_most_once ⟨""⟩ demoCalls).1, by decide,
   (message_changes_at_most_once ⟨""⟩ demoCalls).2.1 emptyWorld "PermissionIs" ""
      "WorldWritable" "" (by decide),
   (message_changes_at_most_once ⟨"custom"⟩ demoCalls).2.2 (by decide)⟩

end Aeacus
